import Mathlib

/-!
Verification development for the `rusbonds_scraper` repository (`bonds.py`).

Shallow embedding conventions:
* Python floats are modelled as exact rationals (`ℚ`); IEEE rounding is not
  modelled.  A float value that is NaN or infinite is modelled as `none`
  (`Option ℚ`) where the code can produce one, as noted per definition.
* A Python function that can raise is modelled with an `Option`/`Except`
  result; `none` / `.error` marks the raised exception.
* `pandas.DataFrame`s are modelled as lists of records; a missing cell (NaN)
  is an `Option.none` field.  Column presence is modelled as always true,
  since the row records carry every column used by the code.
* Network responses (`requests.get`, the CBR XML feed) are inputs of the
  embedded functions: `none` models a request that raised inside the
  surrounding `try`, `some v` models the parsed payload.
-/

set_option maxRecDepth 4000

/-! ### Python `float(...)` string parsing, over exact rationals

Models CPython float-literal parsing (and the parser behind
`pandas.to_numeric`) restricted to finite plain decimal literals: optional
sign, digits with at most one decimal point, optional exponent part.
Special values (`nan`, `inf`), underscores and surrounding whitespace are not
modelled; none of the strings this pipeline handles use them. -/

/-- Scan a run of leading decimal digits.  Arguments: accumulated value,
number of digits read so far, remaining characters.  Returns the value, the
digit count and the rest of the input. -/
def readDigits : ℕ → ℕ → List Char → ℕ × ℕ × List Char
  | v, n, [] => (v, n, [])
  | v, n, c :: cs =>
    if c.isDigit then readDigits (10 * v + (c.toNat - 48)) (n + 1) cs
    else (v, n, c :: cs)

/-- Parse an unsigned decimal literal `digits [. digits]` (at least one digit
overall).  Returns the value and the unread rest. -/
def parseDecPart (cs : List Char) : Option (ℚ × List Char) :=
  let (ip, ni, r1) := readDigits 0 0 cs
  match r1 with
  | '.' :: r2 =>
    let (fp, nf, r3) := readDigits 0 0 r2
    if ni + nf = 0 then none
    else some ((ip : ℚ) + (fp : ℚ) / ((10 : ℚ) ^ nf), r3)
  | _ => if ni = 0 then none else some ((ip : ℚ), r1)

/-- Parse an optional exponent part `e[+|-]digits` ending the literal; fails
on any other trailing characters. -/
def parseExpPart (q : ℚ) (cs : List Char) : Option ℚ :=
  match cs with
  | [] => some q
  | c :: rest =>
    if c = 'e' ∨ c = 'E' then
      let (neg, rest2) : Bool × List Char :=
        match rest with
        | '+' :: r => (false, r)
        | '-' :: r => (true, r)
        | r => (false, r)
      let (ev, en, r3) := readDigits 0 0 rest2
      if en = 0 ∨ r3 ≠ [] then none
      else some (q * (10 : ℚ) ^ (if neg then -(ev : ℤ) else (ev : ℤ)))
    else none

/-- Model of Python `float(s)` / the element parse of
`pandas.to_numeric(..., errors="coerce")` on a string: `none` when the parse
fails (`float` raises `ValueError`; `to_numeric` coerces to NaN). -/
def strToRat? (s : String) : Option ℚ :=
  let (neg, cs1) : Bool × List Char :=
    match s.data with
    | '+' :: r => (false, r)
    | '-' :: r => (true, r)
    | r => (false, r)
  match parseDecPart cs1 with
  | none => none
  | some (q, rest) =>
    match parseExpPart q rest with
    | none => none
    | some q2 => some (if neg then -q2 else q2)

/-! ### `convert_numeric_value` (bonds.py lines 55-59) -/

/-- `value.replace(' ', '').replace(',', '.')`: drop every space, then turn
each comma into a decimal point. -/
def pyClean (s : String) : String :=
  String.mk ((s.data.filter (fun c => c != ' ')).map
    (fun c => if c = ',' then '.' else c))

/-- `convert_numeric_value` (bonds.py 55-59).  Input is the cell value
(`none` models Python `None`, which is falsy, as is any non-string input).
Result `none` models an uncaught `ValueError` raised by `float(...)` on an
unparsable remainder. -/
def convert_numeric_value (value : Option String) : Option ℚ :=
  match value with
  | none => some 0
  | some s => if s = "" then some 0 else strToRat? (pyClean s)

/-- Element behaviour of `pd.to_numeric(col, errors='coerce')` on a scraped
cell: `None`/unparsable text coerces to NaN (`none`). -/
def pd_to_numeric_cell (v : Option String) : Option ℚ :=
  v.bind strToRat?

example : strToRat? "1234.56" = some ((123456 : ℚ) / 100) := by with_unfolding_all rfl
example : strToRat? "15,5" = none := by with_unfolding_all rfl
example : strToRat? "abc" = none := by with_unfolding_all rfl
example : strToRat? "-3.5" = some (-(35 : ℚ) / 10) := by with_unfolding_all rfl
example : strToRat? "2e2" = some (200 : ℚ) := by with_unfolding_all rfl
example : convert_numeric_value (some "1 234,56") = some ((123456 : ℚ) / 100) := by with_unfolding_all rfl
example : convert_numeric_value (some "abc") = none := by with_unfolding_all rfl
example : convert_numeric_value none = some 0 := rfl

/-! ### `parse_table` (bonds.py lines 24-53) -/

/-- Abstract model of one `td.el-table__cell` of a rendered table row: the
function gives, for a CSS sub-selector, the text of the first matching
nested element (`select_one(sel).text`), `none` when no element matches. -/
def Cell := String → Option String

/-- One page's markup, reduced to its observable structure: the rows
matching `tbody tr.el-table__row`, each row being its list of
`td.el-table__cell` cells (including the two leading non-data cells). -/
abbrev Page := List (List Cell)

/-- One scraped item as built by the row loop of `parse_table`: the Python
dict, as an insertion-ordered association list.  A key can be missing
entirely (cell index beyond the row's cell count) or present with value
`none` (`select_one` found no matching sub-element). -/
abbrev RawItem := List (String × Option String)

def selWithLink : String := "div div span div a span"

def selPlain : String := "div div span div span"

/-- `columns_config` (bonds.py 29-41): (cell index, sub-selector, field). -/
def columns_config : List (ℕ × String × String) :=
  [(0, selWithLink, "name"), (1, selPlain, "isin"), (2, selPlain, "nac"),
   (3, selWithLink, "issuer"), (4, selPlain, "duration"),
   (5, selPlain, "yield_rate"), (6, selPlain, "price"),
   (7, selPlain, "outstanding_volume"), (8, selPlain, "amount_of_deals"),
   (9, selPlain, "trading_volume"), (10, selPlain, "coupon_rate")]

/-- Body of the per-row loop of `parse_table` (bonds.py 44-51): skip the two
leading non-data cells (`[2:]`), then for each configured column in order
record the first matching nested text when the cell exists. -/
def parse_row (row : List Cell) : RawItem :=
  let cells := row.drop 2
  columns_config.foldl (fun item e =>
    match cells[e.1]? with
    | some cell => item ++ [(e.2.2, cell e.2.1)]
    | none => item) []

/-- `parse_table` (bonds.py 24-53): one item per row, appended in order. -/
def parse_table (page : Page) : List RawItem :=
  page.foldl (fun data row => data ++ [parse_row row]) []

/-! ### `scrape_data`, collection part (bonds.py lines 251-298) -/

/-- One row of `pd.DataFrame(all_data)` after column alignment over the
fixed 11-field schema: a missing dict key and a `None` value both become
NaN, i.e. `none`. -/
structure RawRecord where
  name : Option String
  isin : Option String
  nac : Option String
  issuer : Option String
  duration : Option String
  yield_rate : Option String
  price : Option String
  outstanding_volume : Option String
  amount_of_deals : Option String
  trading_volume : Option String
  coupon_rate : Option String
deriving DecidableEq

/-- Column alignment done by `pd.DataFrame(all_data)` on one dict. -/
def toRawRecord (item : RawItem) : RawRecord where
  name := (item.lookup "name").join
  isin := (item.lookup "isin").join
  nac := (item.lookup "nac").join
  issuer := (item.lookup "issuer").join
  duration := (item.lookup "duration").join
  yield_rate := (item.lookup "yield_rate").join
  price := (item.lookup "price").join
  outstanding_volume := (item.lookup "outstanding_volume").join
  amount_of_deals := (item.lookup "amount_of_deals").join
  trading_volume := (item.lookup "trading_volume").join
  coupon_rate := (item.lookup "coupon_rate").join

/-- `df.drop_duplicates(keep='first')`: keep the first occurrence of each
row value, preserving order. -/
def dedupFirst {α : Type} [DecidableEq α] (l : List α) : List α :=
  l.foldl (fun acc x => if x ∈ acc then acc else acc ++ [x]) []

/-- The `while True` page loop of `scrape_data` (bonds.py 276-292): parse
the current page source, extend `all_data`, then try the next-page control.
`upcoming` lists the page sources reached by each successful next-page
click; the loop exits exactly when locating/clicking the control raises
(modelled by `upcoming` being exhausted) - its only exit. -/
def scrape_loop (current : Page) (upcoming : List Page) (acc : List RawItem) :
    List RawItem :=
  let acc2 := acc ++ parse_table current
  match upcoming with
  | [] => acc2
  | p :: ps => scrape_loop p ps acc2

/-- `scrape_data` (bonds.py 251-298), collection part: run the page loop
from the first rendered page, build the DataFrame, drop exact duplicates. -/
def scrape_data (first : Page) (rest : List Page) : List RawRecord :=
  dedupFirst ((scrape_loop first rest []).map toRawRecord)

theorem scrape_loop_spec (rest : List Page) (first : Page) (acc : List RawItem) :
    scrape_loop first rest acc = acc ++ ((first :: rest).map parse_table).flatten := by
  induction rest generalizing first acc with
  | nil => simp [scrape_loop]
  | cons p ps ih => simp [scrape_loop, ih]

theorem parse_table_foldl (page : Page) (acc : List RawItem) :
    page.foldl (fun data row => data ++ [parse_row row]) acc
      = acc ++ page.map parse_row := by
  induction page generalizing acc with
  | nil => simp
  | cons r rs ih => simp [List.foldl, ih]

theorem parse_table_eq_map (page : Page) : parse_table page = page.map parse_row := by
  simpa using parse_table_foldl page []

/-- A table row whose data cells all render text `t` for any sub-selector;
used for concrete pagination scenarios. -/
def rowAll (t : String) : List Cell :=
  (fun _ => some "lead1") :: (fun _ => some "lead2")
    :: List.replicate 11 (fun _ => some t)

/-- The aligned record produced by scraping `rowAll t`. -/
def recAll (t : String) : RawRecord :=
  ⟨some t, some t, some t, some t, some t, some t, some t, some t, some t,
   some t, some t⟩

/-- A data cell rendering text `t` exactly under sub-selector `sel`. -/
def mkCell (sel t : String) : Cell := fun s => if s = sel then some t else none

/-- A data cell with no matching nested element for any sub-selector. -/
def noneCell : Cell := fun _ => none

/-- A row with the two leading non-data cells and all 11 configured
sub-elements rendered, data cell `i` showing its text under that column's
configured sub-selector. -/
def fullRow (t0 t1 t2 t3 t4 t5 t6 t7 t8 t9 t10 : String) : List Cell :=
  [(fun _ => some "lead1"), (fun _ => some "lead2"),
   mkCell selWithLink t0, mkCell selPlain t1, mkCell selPlain t2,
   mkCell selWithLink t3, mkCell selPlain t4, mkCell selPlain t5,
   mkCell selPlain t6, mkCell selPlain t7, mkCell selPlain t8,
   mkCell selPlain t9, mkCell selPlain t10]

/-- Like `fullRow` but the price cell (data cell 6) has no matching
sub-element. -/
def priceMissingRow (t0 t1 t2 t3 t4 t5 t7 t8 t9 t10 : String) : List Cell :=
  [(fun _ => some "lead1"), (fun _ => some "lead2"),
   mkCell selWithLink t0, mkCell selPlain t1, mkCell selPlain t2,
   mkCell selWithLink t3, mkCell selPlain t4, mkCell selPlain t5,
   noneCell, mkCell selPlain t7, mkCell selPlain t8,
   mkCell selPlain t9, mkCell selPlain t10]

/-- C8: for every table row the parser skips the two leading non-data
cells, then walks the 11 (sub-selector, field) pairs in fixed order,
recording the first matching nested text or `none` when no sub-element
matches; a full row yields every field set in the order
[name, isin, nac, issuer, duration, yield_rate, price, outstanding_volume,
amount_of_deals, trading_volume, coupon_rate]; a row missing only the price
sub-element yields price absent with all other fields unaffected; and
within-page row order is preserved (`parse_table` maps `parse_row` over the
rows in order). -/
theorem C8_table_page_parsing :
    (∀ page : Page, parse_table page = page.map parse_row)
    ∧ (∀ t0 t1 t2 t3 t4 t5 t6 t7 t8 t9 t10 : String,
        parse_row (fullRow t0 t1 t2 t3 t4 t5 t6 t7 t8 t9 t10)
          = [("name", some t0), ("isin", some t1), ("nac", some t2),
             ("issuer", some t3), ("duration", some t4),
             ("yield_rate", some t5), ("price", some t6),
             ("outstanding_volume", some t7), ("amount_of_deals", some t8),
             ("trading_volume", some t9), ("coupon_rate", some t10)])
    ∧ (∀ t0 t1 t2 t3 t4 t5 t7 t8 t9 t10 : String,
        parse_row (priceMissingRow t0 t1 t2 t3 t4 t5 t7 t8 t9 t10)
          = [("name", some t0), ("isin", some t1), ("nac", some t2),
             ("issuer", some t3), ("duration", some t4),
             ("yield_rate", some t5), ("price", none),
             ("outstanding_volume", some t7), ("amount_of_deals", some t8),
             ("trading_volume", some t9), ("coupon_rate", some t10)]) := by
  refine ⟨parse_table_eq_map, ?_, ?_⟩
  · intro t0 t1 t2 t3 t4 t5 t6 t7 t8 t9 t10
    rfl
  · intro t0 t1 t2 t3 t4 t5 t7 t8 t9 t10
    rfl

/-- C1: the paginated collector returns the concatenation of the per-page
parsed rows with exact-duplicate rows removed keeping the first occurrence;
overlapping pages {A,B} then {B,C} yield exactly [A,B,C]; and when the
next-page control is never found (the very first attempt to locate it
raises), collection terminates after exactly the one page that was
parsed, without erroring. -/
theorem C1_paginated_collector :
    (∀ (first : Page) (rest : List Page),
      scrape_data first rest
        = dedupFirst ((((first :: rest).map parse_table).flatten).map toRawRecord))
    ∧ (∀ first : Page,
      scrape_data first [] = dedupFirst ((parse_table first).map toRawRecord))
    ∧ scrape_data [rowAll "A", rowAll "B"] [[rowAll "B", rowAll "C"]]
        = [recAll "A", recAll "B", recAll "C"] := by
  refine ⟨?_, ?_, ?_⟩
  · intro first rest
    simp [scrape_data, scrape_loop_spec]
  · intro first
    simp [scrape_data, scrape_loop_spec]
  · rfl

/-! ### `improve_dataframe` (bonds.py lines 61-85) -/

/-- One row after `improve_dataframe`: identification columns kept as text,
count/volume columns coerced to numbers, the other numeric columns optional
(NaN = `none`), plus the derived share and the `start_week` column that
later steps may assign (dates are day numbers, as `ℤ`; the column is absent
until assigned, modelled as `none`). -/
structure ProcRecord where
  name : Option String
  isin : Option String
  issuer : Option String
  outstanding_volume : ℚ
  trading_volume : ℚ
  amount_of_deals : ℚ
  duration : Option ℚ
  yield_rate : Option ℚ
  coupon_rate : Option ℚ
  price : Option ℚ
  nac : Option ℚ
  share_of_trading_volume : Option ℚ
  start_week : Option ℤ
deriving DecidableEq

/-- Row-wise effect of `improve_dataframe` (bonds.py 61-85), in source
order: `convert_numeric_value` over the count/volume columns (a raised
`ValueError` propagates out of `apply`: whole result `none`);
`pd.to_numeric(..., errors='coerce')` over duration, yield_rate,
coupon_rate, price, nac; the derived share `trading_volume /
outstanding_volume` (float division by zero gives a non-finite value,
modelled `none`); finally `yield_rate` and `coupon_rate` divided by 100
(NaN stays NaN). -/
def improveRow (r : RawRecord) : Option ProcRecord := do
  let ov ← convert_numeric_value r.outstanding_volume
  let tv ← convert_numeric_value r.trading_volume
  let ad ← convert_numeric_value r.amount_of_deals
  some
    { name := r.name, isin := r.isin, issuer := r.issuer,
      outstanding_volume := ov, trading_volume := tv, amount_of_deals := ad,
      duration := pd_to_numeric_cell r.duration,
      yield_rate := (pd_to_numeric_cell r.yield_rate).map (fun x => x / 100),
      coupon_rate := (pd_to_numeric_cell r.coupon_rate).map (fun x => x / 100),
      price := pd_to_numeric_cell r.price,
      nac := pd_to_numeric_cell r.nac,
      share_of_trading_volume := if ov = 0 then none else some (tv / ov),
      start_week := none }

/-- `improve_dataframe` (bonds.py 61-85) over the whole frame: columns are
transformed element-wise, so the frame result is the row-wise map; `none`
when some cell made `convert_numeric_value` raise. -/
def improve_dataframe (df : List RawRecord) : Option (List ProcRecord) :=
  df.mapM improveRow

/-- A raw record with locale decimal commas in the percentage columns, as
the scraped site renders numbers (fields in schema order: name, isin, nac,
issuer, duration, yield_rate, price, outstanding_volume, amount_of_deals,
trading_volume, coupon_rate). -/
def rawYield155 : RawRecord :=
  ⟨some "BondA", some "RU000A0XX001", some "95,5", some "IssuerA",
   some "1 022", some "15,5", some "99,5", some "1000", some "5",
   some "100", some "12,5"⟩

/-- The same record with dot-formatted decimals in the rescaled columns. -/
def rawYield155dot : RawRecord :=
  { rawYield155 with yield_rate := some "15.5", coupon_rate := some "12.5" }

/-- C2 counterexample: after full enrichment, the record whose `yield_rate`
text is "15,5" has `yield_rate` missing (NaN), not 0.155:
`pd.to_numeric(..., errors='coerce')` does not parse a decimal comma, and
the subsequent division by 100 keeps NaN. -/
theorem C2_cex_yield_comma_is_nan :
    (improve_dataframe [rawYield155]).map (fun l => l.map ProcRecord.yield_rate)
      ≠ some [some ((155 : ℚ) / 1000)] := by
  have h : (improve_dataframe [rawYield155]).map (fun l => l.map ProcRecord.yield_rate)
      = some [none] := by with_unfolding_all rfl
  rw [h]
  simp

/-- C2 (amended): after full enrichment a `yield_rate` of text "15,5"
becomes missing (the generic numeric parse rejects the decimal comma, and
NaN stays NaN through the rescale), while a dot-formatted "15.5" becomes
0.155; `coupon_rate` is rescaled by the same division by 100
("12.5" becomes 0.125). -/
theorem C2_yield_rescale :
    (improve_dataframe [rawYield155]).map (fun l => l.map ProcRecord.yield_rate)
      = some [none]
    ∧ (improve_dataframe [rawYield155dot]).map (fun l => l.map ProcRecord.yield_rate)
      = some [some ((155 : ℚ) / 1000)]
    ∧ (improve_dataframe [rawYield155dot]).map (fun l => l.map ProcRecord.coupon_rate)
      = some [some ((125 : ℚ) / 1000)] :=
  ⟨by with_unfolding_all rfl, by with_unfolding_all rfl, by with_unfolding_all rfl⟩

/-- C4 counterexample: on the unparsable remainder "abc" the normalizer
raises `ValueError` out of `float(...)` (modelled as `none`) instead of
returning a typed not-a-number sentinel - it does not fail closed. -/
theorem C4_cex_normalizer_raises : convert_numeric_value (some "abc") = none := by
  with_unfolding_all rfl

/-- C4 (amended): the normalizer returns 0.0 for absent or empty (or
non-string) input, and the parsed value when the space-stripped,
comma-converted remainder parses as a float literal; for an unparsable
remainder it raises `ValueError` (modelled `none`) rather than yielding a
not-a-number sentinel. -/
theorem C4_normalizer_policy :
    convert_numeric_value none = some 0
    ∧ convert_numeric_value (some "") = some 0
    ∧ (∀ s q, s ≠ "" → strToRat? (pyClean s) = some q →
        convert_numeric_value (some s) = some q)
    ∧ (∀ s, s ≠ "" → strToRat? (pyClean s) = none →
        convert_numeric_value (some s) = none) := by
  refine ⟨rfl, rfl, ?_, ?_⟩
  · intro s q hs hp
    simp [convert_numeric_value, hs, hp]
  · intro s hs hp
    simp [convert_numeric_value, hs, hp]

theorem C4_normalizer_policy_witness :
    convert_numeric_value (some "15,5") = some ((31 : ℚ) / 2) :=
  C4_normalizer_policy.2.2.1 "15,5" ((31 : ℚ) / 2) (by decide)
    (by with_unfolding_all rfl)

/-- C5: the enricher's two coercion-failure policies: the count/volume
columns go through `convert_numeric_value` (absent → 0.0, empty → 0.0,
"1 234,56" → 1234.56), while duration, yield_rate, coupon_rate, price and
nac go through the generic coerce parse whose failure yields a missing
value, never zero (the failed yield/coupon staying missing through the
division by 100). -/
theorem C5_coercion_policies :
    convert_numeric_value none = some 0
    ∧ convert_numeric_value (some "") = some 0
    ∧ convert_numeric_value (some "1 234,56") = some ((123456 : ℚ) / 100)
    ∧ (∀ r p, improveRow r = some p →
        (r.outstanding_volume = none → p.outstanding_volume = 0)
        ∧ (pd_to_numeric_cell r.duration = none → p.duration = none)
        ∧ (pd_to_numeric_cell r.yield_rate = none → p.yield_rate = none)
        ∧ (pd_to_numeric_cell r.coupon_rate = none → p.coupon_rate = none)
        ∧ (pd_to_numeric_cell r.price = none → p.price = none)
        ∧ (pd_to_numeric_cell r.nac = none → p.nac = none)) := by
  refine ⟨rfl, rfl, by with_unfolding_all rfl, ?_⟩
  intro r p h
  cases hov : convert_numeric_value r.outstanding_volume with
  | none => simp [improveRow, hov] at h
  | some ov =>
    cases htv : convert_numeric_value r.trading_volume with
    | none => simp [improveRow, hov, htv] at h
    | some tv =>
      cases had : convert_numeric_value r.amount_of_deals with
      | none => simp [improveRow, hov, htv, had] at h
      | some ad =>
        simp only [improveRow, hov, htv, had, Option.bind_eq_bind, Option.some_bind,
          Option.some.injEq] at h
        subst h
        refine ⟨?_, ?_, ?_, ?_, ?_, ?_⟩
        · intro hro
          rw [hro] at hov
          simpa [convert_numeric_value] using hov.symm
        · intro hd; simp [hd]
        · intro hy; simp [hy]
        · intro hc; simp [hc]
        · intro hp; simp [hp]
        · intro hn; simp [hn]

/-- Default record used to extract computed rows in concrete statements. -/
def procDefault : ProcRecord :=
  ⟨none, none, none, 0, 0, 0, none, none, none, none, none, none, none⟩

theorem C5_coercion_policies_witness :
    convert_numeric_value none = some 0
    ∧ ((improveRow rawYield155).getD procDefault).duration = none := by
  refine ⟨C5_coercion_policies.1, ?_⟩
  exact ((C5_coercion_policies.2.2.2 rawYield155
    ((improveRow rawYield155).getD procDefault)
    (by with_unfolding_all rfl)).2.1) (by with_unfolding_all rfl)

/-! ### `fetch_moex_data` (bonds.py lines 96-137) -/

/-- One `tr` element of the MOEX response document: its `th` texts and its
`td` texts. -/
abbrev HtmlRow := List String × List String

/-- Python `str.split()[0]` on a header: first whitespace-delimited token;
`none` models the `IndexError` raised on a blank header (whitespace is
modelled by the space character). -/
def firstToken (s : String) : Option String :=
  let cs := s.data.dropWhile (fun c => c == ' ')
  match cs with
  | [] => none
  | _ => some (String.mk (cs.takeWhile (fun c => c != ' ')))

def required_cols : List String :=
  ["BOARDID", "TRADEDATE", "SECID", "VALUE", "NUMTRADES"]

/-- One row of the filtered MOEX frame. -/
structure MoexRow where
  boardid : String
  tradedate : String
  secid : String
  value : Option ℚ
  numtrades : Option ℚ
deriving DecidableEq

/-- One row's cell under the first column named `c`. -/
def colValue (cols : List String) (cells : List String) (c : String) : String :=
  cells.getD (cols.indexOf c) ""

/-- `fetch_moex_data` after header extraction (bonds.py 122-132): build the
frame (`pd.DataFrame` raises unless every row's cell count matches the
header count), shorten column names to their first token (a blank header
raises `IndexError`), and when all required columns are present project
them, coerce VALUE and NUMTRADES, and keep only rows with
`BOARDID == "TQIR"`.  A missing required column falls through to the empty
frame; raised errors are caught by the enclosing `try`, also yielding the
empty frame. -/
def moexRowsOfTable (headers : List String) (data : List (List String)) :
    List MoexRow :=
  if data.all (fun cs => cs.length == headers.length) then
    match headers.mapM firstToken with
    | none => []
    | some cols =>
      if required_cols.all (fun c => cols.contains c) then
        (data.map (fun cs =>
          { boardid := colValue cols cs "BOARDID",
            tradedate := colValue cols cs "TRADEDATE",
            secid := colValue cols cs "SECID",
            value := strToRat? (colValue cols cs "VALUE"),
            numtrades := strToRat? (colValue cols cs "NUMTRADES") })).filter
          (fun r => r.boardid == "TQIR")
      else []
  else []

/-- `fetch_moex_data` (bonds.py 96-137).  Input: the parsed response
document reduced to its `tr` rows (`none`: the request raised - network
failure or timeout).  The first `tr` carries the headers (its `th` cells);
later rows with no `td` cells are skipped; no rows at all yields the empty
frame. -/
def fetch_moex_data (resp : Option (List HtmlRow)) : List MoexRow :=
  match resp with
  | none => []
  | some [] => []
  | some (r0 :: rest) =>
    moexRowsOfTable r0.1
      (rest.filterMap (fun r => if r.2 = [] then none else some r.2))

theorem moexRowsOfTable_boardid (headers : List String)
    (data : List (List String)) (r : MoexRow)
    (h : r ∈ moexRowsOfTable headers data) : r.boardid = "TQIR" := by
  unfold moexRowsOfTable at h
  split at h
  · split at h
    · simp at h
    · split at h
      · rw [List.mem_filter] at h
        simpa using h.2
      · simp at h
  · simp at h

/-- A MOEX response document: header row, one TQIR trade row, one row on
another board. -/
def moexDocEx : List HtmlRow :=
  [(["BOARDID", "TRADEDATE", "SECID", "VALUE", "NUMTRADES"], []),
   ([], ["TQIR", "2025-01-13", "RU000A105N25", "10", "2"]),
   ([], ["TQCB", "2025-01-13", "RU000A105N25", "7", "1"])]

/-- A MOEX response document missing the required VALUE column. -/
def moexDocNoValue : List HtmlRow :=
  [(["BOARDID", "TRADEDATE"], []), ([], ["TQIR", "2025-01-13"])]

/-- C7: the secondary-source fetcher returns the empty frame on any
network failure (`none` response) and on a missing required column, never
raising to its caller (it is a total function of the response); and on
success every returned row has board identifier "TQIR", with VALUE and
NUMTRADES carried as coerced numbers. -/
theorem C7_moex_fetch_guard :
    fetch_moex_data none = []
    ∧ (∀ resp r, r ∈ fetch_moex_data resp → r.boardid = "TQIR")
    ∧ (∀ (r0 : HtmlRow) rest cols, r0.1.mapM firstToken = some cols →
        cols.contains "VALUE" = false →
        fetch_moex_data (some (r0 :: rest)) = []) := by
  refine ⟨rfl, ?_, ?_⟩
  · intro resp r h
    match resp with
    | none => simp [fetch_moex_data] at h
    | some [] => simp [fetch_moex_data] at h
    | some (r0 :: rest) => exact moexRowsOfTable_boardid _ _ r h
  · intro r0 rest cols hcols hv
    have hall : required_cols.all (fun c => cols.contains c) = false := by
      simp only [required_cols, List.all_cons, List.all_nil]
      rw [hv]
      simp
    show moexRowsOfTable r0.1 _ = []
    simp only [moexRowsOfTable, hcols]
    rw [hall]
    simp

theorem C7_moex_fetch_guard_witness :
    ((fetch_moex_data (some moexDocEx)).headD
      ⟨"", "", "", none, none⟩).boardid = "TQIR"
    ∧ fetch_moex_data (some moexDocNoValue) = [] := by
  refine ⟨?_, ?_⟩
  · exact C7_moex_fetch_guard.2.1 (some moexDocEx) _
      (of_decide_eq_true (by with_unfolding_all rfl))
  · exact C7_moex_fetch_guard.2.2 (["BOARDID", "TRADEDATE"], [])
      [([], ["TQIR", "2025-01-13"])] ["BOARDID", "TRADEDATE"] rfl rfl

/-! ### `get_exchange_rate` (bonds.py lines 139-152) -/

/-- One `Valute` element of the CBR XML feed: its `CharCode` and `Value`
child texts. -/
structure Valute where
  charCode : String
  value : String
deriving DecidableEq

/-- `s.replace(',', '.')`. -/
def commaToDot (s : String) : String :=
  String.mk (s.data.map (fun c => if c = ',' then '.' else c))

/-- `get_exchange_rate` (bonds.py 139-152).  `resp` is the parsed XML feed
requested for the given date (`none`: the request or `ET.fromstring`
raised).  `xml.find` picks the first entry whose CharCode matches; with no
match the function falls through to 1.0, and an unparsable Value makes
`float` raise inside the `try`, also yielding 1.0. -/
def get_exchange_rate (resp : Option (List Valute)) (currency : String) : ℚ :=
  match resp with
  | none => 1
  | some feed =>
    match feed.find? (fun v => v.charCode == currency) with
    | none => 1
    | some v =>
      match strToRat? (commaToDot v.value) with
      | none => 1
      | some r => r

/-- C6: the currency-rate resolver returns 1.0 on any failure - network
error (raised request), missing currency entry, or rate parse error - and
on success returns the decimal-comma-formatted rate as a number; a valid
feed with a CNY entry "12,85" yields 12.85. -/
theorem C6_rate_resolver :
    (∀ c, get_exchange_rate none c = 1)
    ∧ (∀ feed c, feed.find? (fun v => v.charCode == c) = none →
        get_exchange_rate (some feed) c = 1)
    ∧ (∀ feed c v, feed.find? (fun v => v.charCode == c) = some v →
        strToRat? (commaToDot v.value) = none →
        get_exchange_rate (some feed) c = 1)
    ∧ (∀ feed c v q, feed.find? (fun v => v.charCode == c) = some v →
        strToRat? (commaToDot v.value) = some q →
        get_exchange_rate (some feed) c = q)
    ∧ get_exchange_rate (some [⟨"CNY", "12,85"⟩]) "CNY" = (1285 : ℚ) / 100 := by
  refine ⟨fun c => rfl, ?_, ?_, ?_, by with_unfolding_all rfl⟩
  · intro feed c h
    simp [get_exchange_rate, h]
  · intro feed c v h hp
    simp [get_exchange_rate, h, hp]
  · intro feed c v q h hp
    simp [get_exchange_rate, h, hp]

theorem C6_rate_resolver_witness :
    get_exchange_rate (some [⟨"CNY", "abc"⟩]) "CNY" = 1
    ∧ get_exchange_rate (some [⟨"USD", "80,0"⟩]) "CNY" = 1 :=
  ⟨C6_rate_resolver.2.2.1 [⟨"CNY", "abc"⟩] "CNY" ⟨"CNY", "abc"⟩ rfl
      (by with_unfolding_all rfl),
   C6_rate_resolver.2.1 [⟨"USD", "80,0"⟩] "CNY" rfl⟩

/-! ### `process_yuan_bond` (bonds.py lines 154-192) -/

/-- Label-based single-cell assignment `df.at[idx, col] = v`, as a
positional update (row labels are strictly increasing here, so label order
equals position order). -/
def updateAt {α : Type} (l : List α) (i : ℕ) (f : α → α) : List α :=
  match l, i with
  | [], _ => []
  | x :: xs, 0 => f x :: xs
  | x :: xs, n + 1 => x :: updateAt xs n f

theorem updateAt_getElem?_self {α : Type} (l : List α) (i : ℕ) (f : α → α) :
    (updateAt l i f)[i]? = (l[i]?).map f := by
  induction l generalizing i with
  | nil => simp [updateAt]
  | cons x xs ih =>
    cases i with
    | zero => simp [updateAt]
    | succ n => simpa [updateAt] using ih n

theorem updateAt_getElem?_ne {α : Type} (l : List α) (i j : ℕ) (f : α → α)
    (h : j ≠ i) : (updateAt l i f)[j]? = l[j]? := by
  induction l generalizing i j with
  | nil => simp [updateAt]
  | cons x xs ih =>
    cases i with
    | zero =>
      cases j with
      | zero => exact absurd rfl h
      | succ m => simp [updateAt]
    | succ n =>
      cases j with
      | zero => simp [updateAt]
      | succ m => simpa [updateAt] using ih n m (fun hh => h (by rw [hh]))

theorem findIdx?_eq_none_of_forall {α : Type} (l : List α) (p : α → Bool)
    (h : ∀ x ∈ l, p x = false) : l.findIdx? p = none := by
  induction l with
  | nil => rfl
  | cons x xs ih =>
    have hx := h x (List.mem_cons_self x xs)
    rw [List.findIdx?_cons, hx]
    simpa using ih (fun y hy => h y (List.mem_cons_of_mem x hy))

/-- `moex_data['VALUE'].sum()`: pandas sums over the non-NaN entries
(an empty or all-NaN column sums to 0). -/
def moex_total_value (rows : List MoexRow) : ℚ :=
  (rows.filterMap MoexRow.value).sum

/-- `moex_data['NUMTRADES'].sum()`, same convention. -/
def moex_total_trades (rows : List MoexRow) : ℚ :=
  (rows.filterMap MoexRow.numtrades).sum

/-- `process_yuan_bond` (bonds.py 154-192).  `monday := today - 7` and
`friday := today - 3` are plain day offsets (they are the prior week's
Monday/Friday only when the script runs on a Monday); `friday` only dates
the rate request, whose parsed response is the `cbrResp` input.  The first
row whose `isin` equals the given ISIN is updated in place - share of
trading volume (converted by the resolved rate), raw total value, trade
count and `start_week` - when the MOEX aggregate is non-empty; otherwise,
and when no row matches, the frame is returned unchanged.  A division by
zero rate or zero outstanding volume yields a non-finite float, modelled
`none`. -/
def process_yuan_bond (df : List ProcRecord) (isin : String)
    (moexResp : Option (List HtmlRow)) (cbrResp : Option (List Valute))
    (today : ℤ) : List ProcRecord :=
  match df.findIdx? (fun r => r.isin == some isin) with
  | none => df
  | some idx =>
    let monday := today - 7
    let moex_data := fetch_moex_data moexResp
    if moex_data = [] then df
    else
      let total_value := moex_total_value moex_data
      let total_trades := moex_total_trades moex_data
      let exchange_rate := get_exchange_rate cbrResp "CNY"
      updateAt df idx (fun r =>
        { r with
          share_of_trading_volume :=
            if exchange_rate = 0 ∨ r.outstanding_volume = 0 then none
            else some (total_value / exchange_rate / r.outstanding_volume),
          trading_volume := total_value,
          amount_of_deals := total_trades,
          start_week := some monday })

theorem process_yuan_bond_hit (df : List ProcRecord) (isin : String)
    (mo : Option (List HtmlRow)) (cb : Option (List Valute)) (today : ℤ)
    (i : ℕ) (hidx : df.findIdx? (fun r => r.isin == some isin) = some i)
    (hmo : fetch_moex_data mo ≠ []) :
    process_yuan_bond df isin mo cb today
      = updateAt df i (fun r =>
          { r with
            share_of_trading_volume :=
              if get_exchange_rate cb "CNY" = 0 ∨ r.outstanding_volume = 0
              then none
              else some (moex_total_value (fetch_moex_data mo)
                / get_exchange_rate cb "CNY" / r.outstanding_volume),
            trading_volume := moex_total_value (fetch_moex_data mo),
            amount_of_deals := moex_total_trades (fetch_moex_data mo),
            start_week := some (today - 7) }) := by
  unfold process_yuan_bond
  rw [hidx]
  simp [hmo]

theorem process_yuan_bond_skip (df : List ProcRecord) (isin : String)
    (mo : Option (List HtmlRow)) (cb : Option (List Valute)) (today : ℤ)
    (hmo : fetch_moex_data mo = []) :
    process_yuan_bond df isin mo cb today = df := by
  unfold process_yuan_bond
  cases hfind : df.findIdx? (fun r => r.isin == some isin) with
  | none => rfl
  | some i => simp [hmo]

/-- Category-level enrichment of the collector data (bonds.py 335-336):
`improve_dataframe`, then `collector_proc['start_week'] = date.today() -
timedelta(days=7)` assigns the whole column, i.e. every row. -/
def enrich_collector (raw : List RawRecord) (today : ℤ) :
    Option (List ProcRecord) :=
  (improve_dataframe raw).map (fun d =>
    d.map (fun r => { r with start_week := some (today - 7) }))

/-- The special-case (yuan) bond row, post-`improve_dataframe`. -/
def rYuan : ProcRecord :=
  ⟨some "BondY", some "RU000A105N25", some "I1", 100, 5, 1, none, none,
   none, none, none, some ((5 : ℚ) / 100), none⟩

/-- Another row of the same category, not matching the special ISIN. -/
def rOther : ProcRecord :=
  ⟨some "BondZ", some "RU000A0XX002", some "I2", 200, 8, 2, none, none,
   none, none, none, some ((8 : ℚ) / 200), none⟩

def dfEx : List ProcRecord := [rYuan, rOther]

/-- A CBR feed resolving CNY to rate 2. -/
def cbrRespEx : Option (List Valute) := some [⟨"CNY", "2"⟩]

/-- C3 counterexample: with a non-empty secondary aggregate (total value
10, trade count 2 from `moexDocEx`; CNY rate 2; run at day 100, so "7 days
before today" is day 93), the non-matching record of the same category
keeps `start_week` missing - it is not set to 7 days before today - and
the matching record's `trading_volume` is set to the raw secondary total
10, not the rate-converted 10 / 2. -/
theorem C3_cex_overlay :
    ((process_yuan_bond dfEx "RU000A105N25" (some moexDocEx) cbrRespEx 100).map
        ProcRecord.start_week ≠ [some 93, some 93])
    ∧ ((process_yuan_bond dfEx "RU000A105N25" (some moexDocEx) cbrRespEx 100).map
        ProcRecord.trading_volume ≠ [(10 : ℚ) / 2, 8]) := by
  constructor
  · have h : (process_yuan_bond dfEx "RU000A105N25" (some moexDocEx) cbrRespEx
        100).map ProcRecord.start_week = [some 93, none] := by
      with_unfolding_all rfl
    rw [h]
    simp
  · have h : (process_yuan_bond dfEx "RU000A105N25" (some moexDocEx) cbrRespEx
        100).map ProcRecord.trading_volume = [(10 : ℚ), 8] := by
      with_unfolding_all rfl
    rw [h]
    simp only [ne_eq, List.cons.injEq, not_and]
    intro h10
    norm_num at h10

/-- C3 (amended): when the secondary weekly aggregate is non-empty, the
first record matching the special-case ISIN gets `start_week := today - 7`
(the prior week's Monday when the job runs on a Monday), its share of
trading volume recomputed as secondary total / resolved CNY rate /
outstanding volume, its `trading_volume` set to the raw secondary total
(not rate-converted) and `amount_of_deals` to the secondary trade count;
every other record of that category keeps its `start_week` untouched (so
still missing), while the rows of the other category - via
`enrich_collector` - all get `start_week = today - 7`. -/
theorem C3_overlay_values :
    (∀ (df : List ProcRecord) (isin : String) (mo : Option (List HtmlRow))
        (cb : Option (List Valute)) (today : ℤ) (i : ℕ) (r : ProcRecord),
      df.findIdx? (fun x => x.isin == some isin) = some i →
      fetch_moex_data mo ≠ [] →
      df[i]? = some r →
      (process_yuan_bond df isin mo cb today)[i]? = some
        { r with
          share_of_trading_volume :=
            if get_exchange_rate cb "CNY" = 0 ∨ r.outstanding_volume = 0
            then none
            else some (moex_total_value (fetch_moex_data mo)
              / get_exchange_rate cb "CNY" / r.outstanding_volume),
          trading_volume := moex_total_value (fetch_moex_data mo),
          amount_of_deals := moex_total_trades (fetch_moex_data mo),
          start_week := some (today - 7) }
      ∧ (∀ j, j ≠ i →
          ((process_yuan_bond df isin mo cb today)[j]?).map
              ProcRecord.start_week
            = (df[j]?).map ProcRecord.start_week))
    ∧ (∀ (raw : List RawRecord) (today : ℤ) (l : List ProcRecord),
        enrich_collector raw today = some l →
        ∀ r ∈ l, r.start_week = some (today - 7)) := by
  constructor
  · intro df isin mo cb today i r hidx hmo hr
    rw [process_yuan_bond_hit df isin mo cb today i hidx hmo]
    refine ⟨?_, ?_⟩
    · rw [updateAt_getElem?_self, hr]
      rfl
    · intro j hj
      rw [updateAt_getElem?_ne _ _ _ _ hj]
  · intro raw today l h r hr
    obtain ⟨d, hd, rfl⟩ := Option.map_eq_some'.mp h
    obtain ⟨r0, hr0, rfl⟩ := List.mem_map.mp hr
    rfl

theorem C3_overlay_values_witness :
    ((process_yuan_bond dfEx "RU000A105N25" (some moexDocEx) cbrRespEx 100)[0]?
      = some
        { rYuan with
          share_of_trading_volume :=
            if get_exchange_rate cbrRespEx "CNY" = 0
                ∨ rYuan.outstanding_volume = 0 then none
            else some (moex_total_value (fetch_moex_data (some moexDocEx))
              / get_exchange_rate cbrRespEx "CNY" / rYuan.outstanding_volume),
          trading_volume := moex_total_value (fetch_moex_data (some moexDocEx)),
          amount_of_deals := moex_total_trades (fetch_moex_data (some moexDocEx)),
          start_week := some (100 - 7) })
    ∧ ((process_yuan_bond dfEx "RU000A105N25" (some moexDocEx) cbrRespEx
          100)[1]?).map ProcRecord.start_week
        = (dfEx[1]?).map ProcRecord.start_week := by
  have h := C3_overlay_values.1 dfEx "RU000A105N25" (some moexDocEx) cbrRespEx
    100 0 rYuan (by with_unfolding_all rfl)
    (of_decide_eq_true (by with_unfolding_all rfl)) rfl
  exact ⟨h.1, h.2 1 (by decide)⟩

/-- C10: the overlay operation is atomic and frame-bounded: when no row's
isin matches, or the secondary fetch is empty, the frame is returned
unchanged; otherwise only the first matching row changes, and only in its
share_of_trading_volume, trading_volume, amount_of_deals and start_week
fields - every other row, and every other field of the matching row, is
unchanged. -/
theorem C10_overlay_frame :
    (∀ (df : List ProcRecord) (isin : String) (mo : Option (List HtmlRow))
        (cb : Option (List Valute)) (today : ℤ),
      (∀ r ∈ df, r.isin ≠ some isin) →
      process_yuan_bond df isin mo cb today = df)
    ∧ (∀ (df : List ProcRecord) (isin : String) (mo : Option (List HtmlRow))
        (cb : Option (List Valute)) (today : ℤ),
      fetch_moex_data mo = [] →
      process_yuan_bond df isin mo cb today = df)
    ∧ (∀ (df : List ProcRecord) (isin : String) (mo : Option (List HtmlRow))
        (cb : Option (List Valute)) (today : ℤ) (i : ℕ),
      df.findIdx? (fun x => x.isin == some isin) = some i →
      (∀ j, j ≠ i →
        (process_yuan_bond df isin mo cb today)[j]? = df[j]?)
      ∧ (∀ r r', df[i]? = some r →
          (process_yuan_bond df isin mo cb today)[i]? = some r' →
          r'.name = r.name ∧ r'.isin = r.isin ∧ r'.issuer = r.issuer
          ∧ r'.outstanding_volume = r.outstanding_volume
          ∧ r'.duration = r.duration ∧ r'.yield_rate = r.yield_rate
          ∧ r'.coupon_rate = r.coupon_rate ∧ r'.price = r.price
          ∧ r'.nac = r.nac)) := by
  refine ⟨?_, process_yuan_bond_skip, ?_⟩
  · intro df isin mo cb today h
    unfold process_yuan_bond
    rw [findIdx?_eq_none_of_forall df _
      (fun x hx => beq_eq_false_iff_ne.mpr (h x hx))]
  · intro df isin mo cb today i hidx
    by_cases hmo : fetch_moex_data mo = []
    · rw [process_yuan_bond_skip df isin mo cb today hmo]
      refine ⟨fun j hj => rfl, ?_⟩
      intro r r' hr hr'
      rw [hr] at hr'
      cases hr'
      exact ⟨rfl, rfl, rfl, rfl, rfl, rfl, rfl, rfl, rfl⟩
    · rw [process_yuan_bond_hit df isin mo cb today i hidx hmo]
      refine ⟨fun j hj => updateAt_getElem?_ne _ _ _ _ hj, ?_⟩
      intro r r' hr hr'
      rw [updateAt_getElem?_self, hr] at hr'
      cases hr'
      exact ⟨rfl, rfl, rfl, rfl, rfl, rfl, rfl, rfl, rfl⟩

theorem C10_overlay_frame_witness :
    process_yuan_bond [rOther] "RU000A105N25" (some moexDocEx) cbrRespEx 100
      = [rOther]
    ∧ (process_yuan_bond dfEx "RU000A105N25" (some moexDocEx) cbrRespEx
        100)[1]? = dfEx[1]? := by
  refine ⟨C10_overlay_frame.1 [rOther] "RU000A105N25" (some moexDocEx)
    cbrRespEx 100 ?_, ?_⟩
  · intro r hr
    rw [List.mem_singleton.mp hr]
    exact of_decide_eq_true (by with_unfolding_all rfl)
  · exact (C10_overlay_frame.2.2 dfEx "RU000A105N25" (some moexDocEx) cbrRespEx
      100 0 (by with_unfolding_all rfl)).1 1 (by decide)

/-! ### Final assembly in `main` (bonds.py lines 330-360) -/

/-- A row after the reference join and the collector flag. -/
structure FinalRecord where
  row : ProcRecord
  issuer_id : Option ℤ
  issue_id : Option ℤ
  is_collector : ℤ
deriving DecidableEq

def collector_ids : List ℤ := [12, 13, 15]

/-- `Series.map(dict)` on one cell: an unmapped name, or a NaN input,
yields NaN (no error). -/
def map_id (m : String → Option ℤ) (v : Option String) : Option ℤ :=
  v.bind m

/-- The lambda of bonds.py 352-354: `1 if x in collector_ids else 0`
(a NaN `issuer_id` is in no list, so 0). -/
def collector_flag (x : Option ℤ) : ℤ :=
  match x with
  | some n => if n ∈ collector_ids then 1 else 0
  | none => 0

/-- bonds.py 343-354: add `issuer_id` and `issue_id` to both frames
(`ISSUERS_DICT` / `ISSUES_DICT` are static configuration from the
`issuers` / `issues` modules, passed here as lookup functions), then
`pd.concat([...], ignore_index=True)` - renumbering rows but keeping their
order - and the `is_collector` column. -/
def assemble_all_data (mfo collector : List ProcRecord)
    (issuers issues : String → Option ℤ) : List FinalRecord :=
  ((mfo.map (fun r => (r, map_id issuers r.issuer, map_id issues r.name)))
      ++ (collector.map
        (fun r => (r, map_id issuers r.issuer, map_id issues r.name)))).map
    (fun t => { row := t.1, issuer_id := t.2.1, issue_id := t.2.2,
                is_collector := collector_flag t.2.1 })

/-- bonds.py 330-360, the final-assembly tail of `main`: after `all_data`
is computed the code evaluates `final_data.reset_index(drop=True,
inplace=True)`, but no variable `final_data` is defined at that point (the
module-level one is only assigned from `main`'s result afterwards), so
`main` raises `NameError` there instead of returning the dataset. -/
def main_assembly (mfo collector : List ProcRecord)
    (issuers issues : String → Option ℤ) : Except String (List FinalRecord) :=
  let _all_data := assemble_all_data mfo collector issuers issues
  Except.error "NameError: final_data is not defined"

/-- C9: what holds of the final-assembly step, and where it breaks: the
concatenation of the two enriched category datasets preserves row order,
unmapped issuer or instrument names become a missing identifier without
raising, and `is_collector` is 1 exactly when `issuer_id` is in
{12, 13, 15}; but the step never returns the dataset - it always raises
`NameError` on the undefined `final_data` before the index reset. -/
theorem C9_final_assembly :
    (∀ (mfo collector : List ProcRecord) (issuers issues : String → Option ℤ),
      main_assembly mfo collector issuers issues
        = Except.error "NameError: final_data is not defined")
    ∧ (∀ (mfo collector : List ProcRecord) (issuers issues : String → Option ℤ),
      (assemble_all_data mfo collector issuers issues).map FinalRecord.row
        = mfo ++ collector)
    ∧ (∀ (mfo collector : List ProcRecord) (issuers issues : String → Option ℤ)
        (fr : FinalRecord),
      fr ∈ assemble_all_data mfo collector issuers issues →
      (fr.is_collector = 1 ↔ ∃ n, fr.issuer_id = some n ∧ n ∈ collector_ids)) := by
  refine ⟨fun _ _ _ _ => rfl, ?_, ?_⟩
  · intro mfo collector issuers issues
    simp [assemble_all_data, List.map_map, Function.comp_def]
  · intro mfo collector issuers issues fr hfr
    obtain ⟨t, ht, rfl⟩ := List.mem_map.mp hfr
    cases hx : t.2.1 with
    | none => simp [collector_flag, hx]
    | some n =>
      by_cases hmem : n ∈ collector_ids
      · simp [collector_flag, hx, hmem]
      · simp only [collector_flag, hx, if_neg hmem]
        constructor
        · intro h0
          exact absurd h0 (by norm_num)
        · rintro ⟨m, hm, hmm⟩
          cases hm
          exact absurd hmm hmem

def issuersEx : String → Option ℤ := fun s => if s = "I1" then some 12 else none

def issuesEx : String → Option ℤ := fun _ => none

def frEx : FinalRecord :=
  { row := rYuan, issuer_id := some 12, issue_id := none, is_collector := 1 }

theorem C9_final_assembly_witness : frEx.is_collector = 1 :=
  (C9_final_assembly.2.2 [rYuan] [] issuersEx issuesEx frEx
    (of_decide_eq_true (by with_unfolding_all rfl))).mpr
    ⟨12, rfl, by decide⟩
